import Mathlib

/-!
Verification of the plantops-mcp GraphQL MCP server (`src/index.ts`) against
its natural-language specification.  The TypeScript handlers are shallowly
embedded as pure Lean functions: network interactions are passed in as
explicit outcome values (`Except` for fallible calls, oracle functions for
introspection lookups), and each handler returns its synthesized document
and/or result so that the claims about document synthesis, validation order,
caching and error behaviour can be stated and settled.
-/

namespace PlantOps

/-- The named (non-wrapper) GraphQL type kinds, as used by the introspection
results the server consumes. -/
inductive NamedKind where
  | SCALAR
  | OBJECT
  | INTERFACE
  | UNION
  | ENUM
  | INPUT_OBJECT
deriving DecidableEq, BEq

/-- A GraphQL type reference: a named leaf possibly wrapped in LIST and
NON_NULL wrapper layers.  Wrapper nodes carry `ofType`, named nodes carry an
optional `name` (the introspection JSON may in principle omit it, which the
code papers over with a fallback). -/
inductive TypeRef where
  | named (kind : NamedKind) (name : Option String)
  | list (ofType : TypeRef)
  | nonNull (ofType : TypeRef)
deriving DecidableEq, BEq

/-- A field of an introspected OBJECT/INTERFACE type (name, description,
type reference), as consumed by the handlers. -/
structure SchemaField where
  name : String
  description : Option String
  type : TypeRef
deriving DecidableEq, BEq

/-- A named type entry of the cached introspection schema.  `fields` is
`none` for kinds that carry no field list. -/
structure SchemaType where
  name : String
  kind : NamedKind
  fields : Option (List SchemaField)
deriving DecidableEq, BEq

/-- The cached introspection schema: the three optional root-type names and
the flat list of named types (`__schema.types`). -/
structure IntrospectionSchema where
  queryType : Option String
  mutationType : Option String
  subscriptionType : Option String
  types : List SchemaType
deriving DecidableEq, BEq

/-- JavaScript `x || default` applied to an optional string: `null`,
`undefined` and the empty string are all falsy and yield the default. -/
def jsOrDefault (s : Option String) (d : String) : String :=
  match s with
  | some t => if t = "" then d else t
  | none => d

/-- JavaScript `x || null` applied to an optional string: the empty string
collapses to `null`. -/
def jsOrNull (s : Option String) : Option String :=
  match s with
  | some t => if t = "" then none else some t
  | none => none

/-- The type-walker loop shared by the handlers (`while (kind is NON_NULL or
LIST) follow ofType`): returns the kind and name of the named leaf.  The
spec calls this `unwrapToNamed`. -/
def unwrapToNamed : TypeRef → NamedKind × Option String
  | .named k n => (k, n)
  | .list t => unwrapToNamed t
  | .nonNull t => unwrapToNamed t

/-- Scalar-like test from the spec (section 4.1): true exactly for SCALAR
and ENUM. -/
def isScalarLike (k : NamedKind) : Bool :=
  k == .SCALAR || k == .ENUM

/-- The accumulator loop of `describe_table`'s column-type rendering: walks
the wrapper chain setting `isNonNull` when any NON_NULL layer is seen and
`isList` when any LIST layer is seen, and remembers the leaf name
(`typeInfo.name || \x27unknown\x27`).  Returns `(isNonNull, isList, typeString)`. -/
def describeColumnTypeFlags : TypeRef → Bool × Bool × String
  | .named _ n => (false, false, (jsOrDefault n "unknown"))
  | .list t =>
      ((describeColumnTypeFlags t).1, true, (describeColumnTypeFlags t).2.2)
  | .nonNull t =>
      (true, (describeColumnTypeFlags t).2.1, (describeColumnTypeFlags t).2.2)

/-- The column type string `describe_table` renders for a field: the leaf
name, wrapped in one bracket pair when `isList` was set, with one trailing
bang when `isNonNull` was set. -/
def describeColumnTypeString (r : TypeRef) : String :=
  let flags := describeColumnTypeFlags r
  let fullTypeString := if flags.2.1 then "[" ++ flags.2.2 ++ "]" else flags.2.2
  if flags.1 then fullTypeString ++ "!" else fullTypeString

/-- Modelled from the spec's words (section 4.1, `renderTypeSyntax`): the
exact GraphQL type-syntax renderer the spec describes, wrapping the leaf
name in one `[...]` per LIST layer and appending one `!` per NON_NULL layer
at its own nesting position. -/
def renderTypeSpec : TypeRef → String
  | .named _ n => jsOrDefault n "unknown"
  | .list t => "[" ++ renderTypeSpec t ++ "]"
  | .nonNull t => renderTypeSpec t ++ "!"

/-- Whether any LIST layer occurs in the wrapper chain. -/
def hasListLayer : TypeRef → Bool
  | .named _ _ => false
  | .list _ => true
  | .nonNull t => hasListLayer t

/-- Whether any NON_NULL layer occurs in the wrapper chain. -/
def hasNonNullLayer : TypeRef → Bool
  | .named _ _ => false
  | .nonNull _ => true
  | .list t => hasNonNullLayer t

/-- The name at the named leaf of a wrapper chain (with the code's
`unknown` fallback). -/
def leafName : TypeRef → String
  | .named _ n => jsOrDefault n "unknown"
  | .list t => leafName t
  | .nonNull t => leafName t

/-- The deeply nested example from the claim:
NON_NULL(LIST(NON_NULL(SCALAR Int))). -/
def nestedIntRef : TypeRef :=
  .nonNull (.list (.nonNull (.named .SCALAR (some "Int"))))

/-- One step of the schema cache (`getIntrospectionSchema`): the cache slot
before the call, the operation result, and how many introspection fetches
were performed during the call. -/
structure CacheStep where
  cacheAfter : Option IntrospectionSchema
  result : Except String IntrospectionSchema
  fetches : Nat

/-- The schema cache step `getIntrospectionSchema`, with the outcome of the
single possible introspection fetch passed in explicitly.  A fetch outcome
of `.ok none` models a response whose root `__schema` object is missing;
`.error` models a transport or GraphQL failure (as wrapped by
`makeGqlRequest`).  Mirrors `src/index.ts` lines 75 to 94: a loaded cache is
returned at once with no fetch; otherwise one fetch happens and any failure
resets the slot to empty and propagates a wrapped error. -/
def getIntrospectionSchema (cache : Option IntrospectionSchema)
    (fetch : Except String (Option IntrospectionSchema)) : CacheStep :=
  match cache with
  | some s => ⟨some s, .ok s, 0⟩
  | none =>
    match fetch with
    | .ok (some s) => ⟨some s, .ok s, 1⟩
    | .ok none =>
        ⟨none,
          .error ("Failed to get GraphQL schema: " ++
            "Introspection query did not return a __schema object."), 1⟩
    | .error msg => ⟨none, .error ("Failed to get GraphQL schema: " ++ msg), 1⟩

/-- The documents a handler actually sent over the network: a handler that
fails before building its document sends nothing. -/
def sentRequests {α : Type} (r : Except String α) : List α :=
  match r with
  | .ok d => [d]
  | .error _ => []

/-- The `run_graphql_query` gate: rejects (before any network call) any
document whose trimmed, lower-cased text starts with `mutation`; otherwise
the document is sent as-is. -/
def run_graphql_query (query : String) : Except String String :=
  if (query.trim.toLower).startsWith "mutation" then
    .error "This tool only supports read-only queries..."
  else
    .ok query

/-- The `run_graphql_mutation` gate: rejects (before any network call) any
document whose trimmed, lower-cased text does not start with `mutation`;
otherwise the document is sent as-is. -/
def run_graphql_mutation (mutation : String) : Except String String :=
  if !(mutation.trim.toLower).startsWith "mutation" then
    .error "The provided string does not appear to be a mutation..."
  else
    .ok mutation

/-- The five aggregation functions `aggregate_data` accepts. -/
inductive AggFn where
  | count
  | sum
  | avg
  | min
  | max
deriving DecidableEq, BEq

/-- The string name of an aggregation function, as it appears in the
synthesized document and in error messages. -/
def AggFn.fnName : AggFn → String
  | .count => "count"
  | .sum => "sum"
  | .avg => "avg"
  | .min => "min"
  | .max => "max"

/-- The aggregate root field targeted by `aggregate_data`. -/
def aggregateRootName (tableName : String) : String :=
  tableName ++ "_aggregate"

/-- The bool-expression input-type name used for the optional filter. -/
def boolExpName (tableName : String) : String :=
  tableName ++ "_bool_exp"

/-- The literal document template of `aggregate_data` (the `gql` template of
`src/index.ts` lines 292 to 298, whitespace included). -/
def aggregateQueryText (filterVariableDefinition aggregateTableName
    whereClause aggregateSelection : String) : String :=
  " \n      query AggregateData " ++ filterVariableDefinition ++ " \x7b\n        " ++
    aggregateTableName ++ "(" ++ whereClause ++ ") \x7b\n          aggregate " ++
    aggregateSelection ++ "\n        \x7d\n      \x7d\n    "

/-- JavaScript falsiness of the optional `field` argument (`!field`): an
absent field and the empty string are both falsy. -/
def jsFalsy (field : Option String) : Bool :=
  match field with
  | none => true
  | some t => t == ""

/-- The `aggregate_data` handler up to the point where its document is sent:
validates the `field` argument with the JS-falsy gate
`aggregateFunction !== count && !field` (so an empty-string field counts as
absent), then synthesizes the document and its variables map (the filter
value, when given).  An `.error` is raised before any document exists,
hence before any network call. -/
def aggregate_data (tableName : String) (aggregateFunction : AggFn)
    (field : Option String) (filter : Option String) :
    Except String (String × Option String) :=
  if aggregateFunction ≠ .count ∧ jsFalsy field = true then
    .error ("The \x27field\x27 parameter is required for \x27" ++
      aggregateFunction.fnName ++ "\x27 aggregation.")
  else
    let selectionResult : Except String String :=
      if aggregateFunction = .count then
        .ok "\x7b count \x7d"
      else
        match field with
        | some f =>
            if f == "" then
              .error ("\x27field\x27 parameter is missing for \x27" ++
                aggregateFunction.fnName ++ "\x27 aggregation.")
            else
              .ok ("\x7b " ++ aggregateFunction.fnName ++ " \x7b " ++ f ++ " \x7d \x7d")
        | none =>
            .error ("\x27field\x27 parameter is missing for \x27" ++
              aggregateFunction.fnName ++ "\x27 aggregation.")
    match selectionResult with
    | .error e => .error e
    | .ok aggregateSelection =>
      let filterVariableDefinition :=
        match filter with
        | some _ => "($filter: " ++ boolExpName tableName ++ "!)"
        | none => ""
      let whereClause :=
        match filter with
        | some _ => "where: $filter"
        | none => ""
      .ok (aggregateQueryText filterVariableDefinition (aggregateRootName tableName)
            whereClause aggregateSelection, filter)

/-- The literal document template of `preview_table_data` (the `gql`
template of `src/index.ts` line 257), with the selected field names joined
by newline plus ten spaces as in the code. -/
def preview_query_doc (tableName : String) (sel : List String) : String :=
  " query PreviewData($limit: Int!) \x7b " ++ tableName ++ "(limit: $limit) \x7b " ++
    String.intercalate "\n          " sel ++ " \x7d \x7d"

/-- The scalar-like field names of a table type, in declared order: the
fields whose unwrapped leaf kind is SCALAR or ENUM. -/
def preview_scalarFields (tableType : SchemaType) : List String :=
  ((tableType.fields.getD []).filter
    (fun f => (unwrapToNamed f.type).1 == .SCALAR || (unwrapToNamed f.type).1 == .ENUM)).map
    SchemaField.name

/-- The selection set of the preview query: the scalar-like field names, or
the single meta field `__typename` when none qualify. -/
def preview_selection (tableType : SchemaType) : List String :=
  let scalarFields := preview_scalarFields tableType
  if scalarFields = [] then ["__typename"] else scalarFields

/-- The `preview_table_data` handler up to the point where its document is
sent: resolves the OBJECT type of the table from the cached schema, then
synthesizes the preview document and its variables map (the limit). -/
def preview_table_data (tableName : String) (limit : Int)
    (schema : IntrospectionSchema) : Except String (String × Int) :=
  match schema.types.find? (fun t => t.name == tableName && t.kind == .OBJECT) with
  | none => .error ("Table (Object type) \x27" ++ tableName ++ "\x27 not found in schema.")
  | some tableType =>
      .ok (preview_query_doc tableName (preview_selection tableType), limit)

/-- Lexicographic less-or-equal on code-point lists: the executable model
of the `localeCompare` comparator the handlers sort with. -/
def strLeList : List Char → List Char → Bool
  | [], _ => true
  | _ :: _, [] => false
  | a :: as, b :: bs =>
      if a.toNat < b.toNat then true
      else if b.toNat < a.toNat then false
      else strLeList as bs

/-- Lexicographic less-or-equal on strings by code points. -/
def strLe (a b : String) : Bool :=
  strLeList a.data b.data

/-- The three root-operation kinds of `list_root_fields`. -/
inductive RootKind where
  | QUERY
  | MUTATION
  | SUBSCRIPTION
deriving DecidableEq, BEq

/-- The fields of the root type referenced by an optional root-type name:
empty when the reference is absent, when no type of that name exists, or
when the found type carries no field list. -/
def rootFieldsFor (schema : IntrospectionSchema) (root : Option String) :
    List SchemaField :=
  match root with
  | none => []
  | some rootName =>
      (((schema.types.find? (fun t => t.name == rootName)).bind SchemaType.fields).getD [])

/-- The concatenation step of `list_root_fields`: query-root fields, then
mutation-root fields, then subscription-root fields, each included when the
filter allows it and the root reference exists. -/
def collectedRootFields (fieldType : Option RootKind)
    (schema : IntrospectionSchema) : List SchemaField :=
  (if fieldType = none ∨ fieldType = some .QUERY then
      rootFieldsFor schema schema.queryType
    else []) ++
  (if fieldType = none ∨ fieldType = some .MUTATION then
      rootFieldsFor schema schema.mutationType
    else []) ++
  (if fieldType = none ∨ fieldType = some .SUBSCRIPTION then
      rootFieldsFor schema schema.subscriptionType
    else [])

/-- The `list_root_fields` handler: the collected fields, mapped to
(name, description-or-default) and sorted by name with a stable sort — the
JavaScript `Array.prototype.sort` with the name comparator, modelled by a
stable insertion sort over code-point string order. -/
def list_root_fields (fieldType : Option RootKind)
    (schema : IntrospectionSchema) : List (String × String) :=
  List.insertionSort (fun a b => strLe a.1 b.1 = true)
    ((collectedRootFields fieldType schema).map
      (fun f => (f.name, jsOrDefault f.description "No description.")))

/-- The root-type reference of the schema for a given operation kind. -/
def rootRefOf (schema : IntrospectionSchema) : RootKind → Option String
  | .QUERY => schema.queryType
  | .MUTATION => schema.mutationType
  | .SUBSCRIPTION => schema.subscriptionType

/-- One origin group of the spec's `listRootFields`: that root's fields,
tagged by the origin kind, sorted by name ascending within the group. -/
def listRootFieldsSpecGroup (schema : IntrospectionSchema) (k : RootKind) :
    List (RootKind × String × String) :=
  List.insertionSort (fun a b => strLe a.2.1 b.2.1 = true)
    ((rootFieldsFor schema (rootRefOf schema k)).map
      (fun f => (k, f.name, jsOrDefault f.description "No description.")))

/-- Modelled from the spec's words (section 4.3, `listRootFields`): if an
operation kind is given, only that root's fields, sorted by name ascending;
if omitted, the union across all three roots that exist, each field tagged
by its origin, sorted by name ascending within each origin group. -/
def listRootFieldsSpec (fieldType : Option RootKind)
    (schema : IntrospectionSchema) : List (RootKind × String × String) :=
  match fieldType with
  | some k => listRootFieldsSpecGroup schema k
  | none =>
      listRootFieldsSpecGroup schema .QUERY ++
      listRootFieldsSpecGroup schema .MUTATION ++
      listRootFieldsSpecGroup schema .SUBSCRIPTION

/-- An argument of a field as returned by the `describe_table` type query. -/
structure DescArg where
  name : String
  description : Option String
  type : TypeRef
deriving DecidableEq, BEq

/-- A field as returned by the `describe_table` type query: `args` is
optional because the remote response may omit it. -/
structure DescField where
  name : String
  description : Option String
  type : TypeRef
  args : Option (List DescArg)
deriving DecidableEq, BEq

/-- The `__type` payload the `describe_table` type query returns for one
named type.  `fields` is `null` for kinds without a field list (SCALAR,
ENUM, UNION, INPUT_OBJECT). -/
structure TableTypeInfo where
  name : Option String
  description : Option String
  fields : Option (List DescField)
deriving DecidableEq, BEq

/-- A JavaScript runtime failure surfaced by a handler: either an `Error`
thrown on purpose, or a `TypeError` raised by dereferencing a missing
value. -/
inductive JsError where
  | thrown (msg : String)
  | typeError (msg : String)
deriving DecidableEq, BEq

/-- One column of the `describe_table` output. -/
structure ColumnInfo where
  name : String
  type : String
  description : Option String
  args : Option (List DescArg)
deriving DecidableEq, BEq

/-- The structured output of `describe_table`. -/
structure TableDescription where
  name : String
  schemaName : String
  description : Option String
  columns : List ColumnInfo
deriving DecidableEq, BEq

/-- JavaScript `name.charAt(0).toUpperCase() + name.slice(1)`. -/
def capitalizeFirst (s : String) : String :=
  match s.data with
  | [] => ""
  | c :: cs => String.mk (c.toUpper :: cs)

/-- The column list of `describe_table`: each field mapped to its rendered
type string, description and non-empty argument list, then sorted by column
name (stable, code-point order, as for `list_root_fields`). -/
def describeColumns (fs : List DescField) : List ColumnInfo :=
  List.insertionSort (fun a b => strLe a.name b.name = true)
    (fs.map (fun f =>
      ⟨f.name, describeColumnTypeString f.type, jsOrNull f.description,
        match f.args with
        | some as => if as.length = 0 then none else some as
        | none => none⟩))

/-- What `describe_table` does once a `__type` lookup has succeeded: the
code dereferences `__type.fields.map` directly, so a missing field list
raises a `TypeError` instead of a handled error. -/
def describe_table_found (tableName schemaName : String) (t : TableTypeInfo) :
    Except JsError TableDescription :=
  match t.fields with
  | none => .error (.typeError "Cannot read properties of null (reading \x27map\x27)")
  | some fs => .ok ⟨tableName, schemaName, jsOrNull t.description, describeColumns fs⟩

/-- The `describe_table` handler with the remote `__type` lookup passed in
as an oracle from type name to payload.  Returns the list of type names it
looked up (each lookup is one network round-trip) together with the
outcome. -/
def describe_table (lookup : String → Option TableTypeInfo)
    (tableName schemaName : String) :
    List String × Except JsError TableDescription :=
  match lookup tableName with
  | some t => ([tableName], describe_table_found tableName schemaName t)
  | none =>
    match lookup (capitalizeFirst tableName) with
    | some t =>
        ([tableName, capitalizeFirst tableName],
          describe_table_found tableName schemaName t)
    | none =>
        ([tableName, capitalizeFirst tableName],
          .error (.thrown ("Table \x27" ++ tableName ++
            "\x27 not found in schema. Check the table name and schema.")))

/-- An HTTP response as observed by the `health_check` GET branch. -/
structure HttpResponse where
  status : Nat
  statusText : String
  ok : Bool
deriving DecidableEq

/-- The body of `health_check`'s try block: the GET branch when a health
URL is given (throwing on a non-ok status), the `\x7b __typename \x7d` GraphQL
probe otherwise.  `.error` models a thrown exception inside the block. -/
def health_check_attempt (healthEndpointUrl : Option String)
    (fetchOutcome : Except String HttpResponse)
    (gqlOutcome : Except String String) (endpoint : String) :
    Except String String :=
  match healthEndpointUrl with
  | some url =>
    match fetchOutcome with
    | .error m => .error m
    | .ok response =>
      let resultText := "Health endpoint " ++ url ++ " status: " ++
        toString response.status ++ " " ++ response.statusText
      if !response.ok then .error resultText else .ok resultText
  | none =>
    match gqlOutcome with
    | .error m => .error m
    | .ok resultJson =>
        .ok ("GraphQL endpoint " ++ endpoint ++ " is responsive. Result: " ++ resultJson)

/-- The `health_check` handler: every exception of the attempt is caught
and turned into a returned text payload, so the handler itself always
returns a value. -/
def health_check (healthEndpointUrl : Option String)
    (fetchOutcome : Except String HttpResponse)
    (gqlOutcome : Except String String) (endpoint : String) :
    Except JsError String :=
  match health_check_attempt healthEndpointUrl fetchOutcome gqlOutcome endpoint with
  | .ok resultText => .ok ("Health check successful. " ++ resultText)
  | .error msg => .ok ("Health check failed: " ++ msg)

/-- A schema whose query root has the single field `z` and whose mutation
root has the single field `a`: the two sort policies order them differently. -/
def exRootSchema : IntrospectionSchema :=
  ⟨some "query_root", some "mutation_root", none,
    [⟨"query_root", .OBJECT, some [⟨"z", none, .named .SCALAR (some "Int")⟩]⟩,
     ⟨"mutation_root", .OBJECT, some [⟨"a", none, .named .SCALAR (some "Int")⟩]⟩]⟩

/-- The spec's worked preview example: a table type with fields
id: Int!, name: String, tags: [String!]!, profile: Profile. -/
def previewExampleType : SchemaType :=
  ⟨"t", .OBJECT, some
    [⟨"id", none, .nonNull (.named .SCALAR (some "Int"))⟩,
     ⟨"name", none, .named .SCALAR (some "String")⟩,
     ⟨"tags", none, .nonNull (.list (.nonNull (.named .SCALAR (some "String"))))⟩,
     ⟨"profile", none, .named .OBJECT (some "Profile")⟩]⟩

/-- A schema containing only the preview example table type. -/
def previewExampleSchema : IntrospectionSchema :=
  ⟨some "query_root", none, none, [previewExampleType]⟩

/-- A `__type` payload for a SCALAR type: its `fields` list is null. -/
def scalarTypeInfo : TableTypeInfo :=
  ⟨some "Int", none, none⟩

theorem strLeList_total (as bs : List Char) :
    strLeList as bs = true ∨ strLeList bs as = true := by
  induction as generalizing bs with
  | nil => left; rfl
  | cons a as ih =>
    cases bs with
    | nil => right; rfl
    | cons b bs =>
      rcases Nat.lt_trichotomy a.toNat b.toNat with h | h | h
      · left; simp [strLeList, h]
      · have h2 : ¬ a.toNat < b.toNat := by omega
        have h3 : ¬ b.toNat < a.toNat := by omega
        rcases ih bs with hh | hh
        · left; simp [strLeList, h2, h3, hh]
        · right; simp [strLeList, h2, h3, hh]
      · right; simp [strLeList, h]

theorem strLeList_trans (as bs cs : List Char) (h1 : strLeList as bs = true)
    (h2 : strLeList bs cs = true) : strLeList as cs = true := by
  induction as generalizing bs cs with
  | nil => rfl
  | cons a as ih =>
    cases bs with
    | nil => simp [strLeList] at h1
    | cons b bs =>
      cases cs with
      | nil => simp [strLeList] at h2
      | cons c cs =>
        have inv1 : a.toNat < b.toNat ∨
            (a.toNat = b.toNat ∧ strLeList as bs = true) := by
          by_cases hab : a.toNat < b.toNat
          · exact Or.inl hab
          · by_cases hba : b.toNat < a.toNat
            · simp [strLeList, hab, hba] at h1
            · exact Or.inr ⟨by omega, by simpa [strLeList, hab, hba] using h1⟩
        have inv2 : b.toNat < c.toNat ∨
            (b.toNat = c.toNat ∧ strLeList bs cs = true) := by
          by_cases hbc : b.toNat < c.toNat
          · exact Or.inl hbc
          · by_cases hcb : c.toNat < b.toNat
            · simp [strLeList, hbc, hcb] at h2
            · exact Or.inr ⟨by omega, by simpa [strLeList, hbc, hcb] using h2⟩
        rcases inv1 with hab | ⟨hab, hrec1⟩ <;> rcases inv2 with hbc | ⟨hbc, hrec2⟩
        · simp [strLeList, show a.toNat < c.toNat by omega]
        · simp [strLeList, show a.toNat < c.toNat by omega]
        · simp [strLeList, show a.toNat < c.toNat by omega]
        · simp [strLeList, show ¬ a.toNat < c.toNat by omega,
            show ¬ c.toNat < a.toNat by omega, ih bs cs hrec1 hrec2]

theorem describeColumnTypeFlags_eq (r : TypeRef) :
    describeColumnTypeFlags r = (hasNonNullLayer r, hasListLayer r, leafName r) := by
  induction r with
  | named k n => rfl
  | list t ih =>
      simp [describeColumnTypeFlags, hasNonNullLayer, hasListLayer, leafName, ih]
  | nonNull t ih =>
      simp [describeColumnTypeFlags, hasNonNullLayer, hasListLayer, leafName, ih]

/-- C1 counterexample: on the chain NON_NULL(LIST(NON_NULL(SCALAR Int)))
the column type string rendered by `describe_table` is `[Int]!`, not the
`[Int!]!` the claim requires (the spec's exact renderer `renderTypeSpec`
produces the latter). -/
theorem describe_table_render_nested_counterexample :
    describeColumnTypeString nestedIntRef = "[Int]!" ∧
    renderTypeSpec nestedIntRef = "[Int!]!" ∧
    describeColumnTypeString nestedIntRef ≠ "[Int!]!" := by
  refine ⟨by decide, by decide, by decide⟩

/-- C1 (amended): the column type string rendered by `describe_table`
collapses the wrapper chain — the leaf name gains one surrounding bracket
pair when any LIST layer occurs anywhere in the chain, and one trailing
bang when any NON_NULL layer occurs anywhere in the chain; inner nesting
positions are not reconstructed. -/
theorem describe_table_render_collapses_wrappers (r : TypeRef) :
    describeColumnTypeString r =
      (if hasNonNullLayer r then
        (if hasListLayer r then "[" ++ leafName r ++ "]" else leafName r) ++ "!"
      else
        (if hasListLayer r then "[" ++ leafName r ++ "]" else leafName r)) := by
  unfold describeColumnTypeString
  rw [describeColumnTypeFlags_eq]

/-- C3: the schema cache is a two-state machine.  A loaded cache is served
immediately with no fetch and is unchanged; an empty cache performs exactly
one fetch; a fetch failure (transport error, or a response missing the root
schema object) leaves the cache empty and propagates a wrapped error
carrying the underlying cause; and after any call the cache slot is either
empty or holds exactly the full schema that the call returned. -/
theorem schema_cache_two_state (s : IntrospectionSchema) (msg : String)
    (fetch : Except String (Option IntrospectionSchema))
    (cache : Option IntrospectionSchema) :
    getIntrospectionSchema (some s) fetch = ⟨some s, .ok s, 0⟩ ∧
    getIntrospectionSchema none (.ok (some s)) = ⟨some s, .ok s, 1⟩ ∧
    getIntrospectionSchema none (.ok none) =
      ⟨none, .error ("Failed to get GraphQL schema: " ++
        "Introspection query did not return a __schema object."), 1⟩ ∧
    getIntrospectionSchema none (.error msg) =
      ⟨none, .error ("Failed to get GraphQL schema: " ++ msg), 1⟩ ∧
    (getIntrospectionSchema cache fetch).fetches ≤ 1 ∧
    ((getIntrospectionSchema cache fetch).cacheAfter = none ∨
      ∃ t, (getIntrospectionSchema cache fetch).cacheAfter = some t ∧
        (getIntrospectionSchema cache fetch).result = .ok t) := by
  refine ⟨rfl, rfl, rfl, rfl, ?_, ?_⟩
  · cases cache with
    | some t => exact Nat.zero_le 1
    | none =>
      cases fetch with
      | error m => exact Nat.le_refl 1
      | ok o => cases o with
        | none => exact Nat.le_refl 1
        | some t => exact Nat.le_refl 1
  · cases cache with
    | some t => exact Or.inr ⟨t, rfl, rfl⟩
    | none =>
      cases fetch with
      | error m => exact Or.inl rfl
      | ok o => cases o with
        | none => exact Or.inl rfl
        | some t => exact Or.inr ⟨t, rfl, rfl⟩

/-- C2 counterexample: on a schema whose query root has the single field
`z` and whose mutation root has the single field `a`, the handler returns
the untagged, globally sorted pairs `[(a, ...), (z, ...)]`, while the
claim's tagged, per-origin-group ordering puts the query-root field `z`
first; the two outputs differ even after erasing the origin tags. -/
theorem list_root_fields_untagged_global_sort_counterexample :
    list_root_fields none exRootSchema =
      [("a", "No description."), ("z", "No description.")] ∧
    listRootFieldsSpec none exRootSchema =
      [(RootKind.QUERY, "z", "No description."),
       (RootKind.MUTATION, "a", "No description.")] ∧
    list_root_fields none exRootSchema ≠
      (listRootFieldsSpec none exRootSchema).map (fun e => (e.2.1, e.2.2)) := by
  refine ⟨by decide, by decide, by decide⟩

/-- C2 (amended): with the fieldType argument omitted, `list_root_fields`
returns the fields of every root type that exists — as untagged
(name, description-or-default) pairs — as one sequence sorted globally by
field name ascending across all origins: the output is a permutation of
the concatenated root fields and is sorted by name. -/
theorem list_root_fields_sorted_union (fieldType : Option RootKind)
    (schema : IntrospectionSchema) :
    List.Perm (list_root_fields fieldType schema)
      ((collectedRootFields fieldType schema).map
        (fun f => (f.name, jsOrDefault f.description "No description."))) ∧
    List.Sorted (fun a b => strLe a.1 b.1 = true)
      (list_root_fields fieldType schema) := by
  constructor
  · exact List.perm_insertionSort _ _
  · haveI : IsTotal (String × String) (fun a b => strLe a.1 b.1 = true) :=
      ⟨fun a b => strLeList_total a.1.data b.1.data⟩
    haveI : IsTrans (String × String) (fun a b => strLe a.1 b.1 = true) :=
      ⟨fun a b c => strLeList_trans a.1.data b.1.data c.1.data⟩
    exact List.sorted_insertionSort _ _

/-- C7: the query runner fails, sending nothing, exactly when the trimmed,
lower-cased document text starts with `mutation`; the mutation runner
fails, sending nothing, exactly when it does not. -/
theorem mutation_prefix_gates (q m : String) :
    ((∃ e, run_graphql_query q = .error e) ↔
      (q.trim.toLower).startsWith "mutation" = true) ∧
    (sentRequests (run_graphql_query q) = [] ↔
      (q.trim.toLower).startsWith "mutation" = true) ∧
    ((∃ e, run_graphql_mutation m = .error e) ↔
      (m.trim.toLower).startsWith "mutation" = false) ∧
    (sentRequests (run_graphql_mutation m) = [] ↔
      (m.trim.toLower).startsWith "mutation" = false) := by
  cases hq : (q.trim.toLower).startsWith "mutation" <;>
    cases hm : (m.trim.toLower).startsWith "mutation" <;>
      simp [run_graphql_query, run_graphql_mutation, sentRequests, hq, hm]

/-- C5: with sum, avg, min or max and no field argument, `aggregate_data`
fails with the argument error before any document is sent; with count and
a field supplied, the call succeeds, sends its document, and behaves
exactly as if the field had been omitted. -/
theorem aggregate_field_requirement (t f : String) (fil : Option String) :
    aggregate_data t .sum none fil =
      .error "The \x27field\x27 parameter is required for \x27sum\x27 aggregation." ∧
    aggregate_data t .avg none fil =
      .error "The \x27field\x27 parameter is required for \x27avg\x27 aggregation." ∧
    aggregate_data t .min none fil =
      .error "The \x27field\x27 parameter is required for \x27min\x27 aggregation." ∧
    aggregate_data t .max none fil =
      .error "The \x27field\x27 parameter is required for \x27max\x27 aggregation." ∧
    sentRequests (aggregate_data t .sum none fil) = [] ∧
    sentRequests (aggregate_data t .avg none fil) = [] ∧
    sentRequests (aggregate_data t .min none fil) = [] ∧
    sentRequests (aggregate_data t .max none fil) = [] ∧
    aggregate_data t .count (some f) fil = aggregate_data t .count none fil ∧
    (∃ d, aggregate_data t .count (some f) fil = .ok d) ∧
    sentRequests (aggregate_data t .count (some f) fil) ≠ [] := by
  refine ⟨rfl, rfl, rfl, rfl, rfl, rfl, rfl, rfl, rfl, ⟨_, rfl⟩, ?_⟩
  exact List.cons_ne_nil _ _

/-- C6: every validated `aggregate_data` call — count with any field
argument, or a non-count function with a truthy (non-empty) field —
synthesizes the document on the root field `<tableName>_aggregate` (via
`aggregateRootName`), selecting `aggregate \x7b count \x7d` for count and
`aggregate \x7b fn \x7b field \x7d \x7d` otherwise; a supplied filter adds the
variable declaration `($filter: <tableName>_bool_exp!)` and the
`where: $filter` argument, and becomes the variables map; with no filter
both parts are empty and so is the variables map. -/
theorem aggregate_document_shape (t f flt : String) (field : Option String)
    (hf : f ≠ "") :
    aggregateRootName t = t ++ "_aggregate" ∧
    boolExpName t = t ++ "_bool_exp" ∧
    aggregate_data t .count field (some flt) =
      .ok (aggregateQueryText ("($filter: " ++ boolExpName t ++ "!)")
        (aggregateRootName t) "where: $filter" "\x7b count \x7d", some flt) ∧
    aggregate_data t .count field none =
      .ok (aggregateQueryText "" (aggregateRootName t) "" "\x7b count \x7d", none) ∧
    aggregate_data t .sum (some f) (some flt) =
      .ok (aggregateQueryText ("($filter: " ++ boolExpName t ++ "!)")
        (aggregateRootName t) "where: $filter"
        ("\x7b sum \x7b " ++ f ++ " \x7d \x7d"), some flt) ∧
    aggregate_data t .avg (some f) (some flt) =
      .ok (aggregateQueryText ("($filter: " ++ boolExpName t ++ "!)")
        (aggregateRootName t) "where: $filter"
        ("\x7b avg \x7b " ++ f ++ " \x7d \x7d"), some flt) ∧
    aggregate_data t .min (some f) (some flt) =
      .ok (aggregateQueryText ("($filter: " ++ boolExpName t ++ "!)")
        (aggregateRootName t) "where: $filter"
        ("\x7b min \x7b " ++ f ++ " \x7d \x7d"), some flt) ∧
    aggregate_data t .max (some f) (some flt) =
      .ok (aggregateQueryText ("($filter: " ++ boolExpName t ++ "!)")
        (aggregateRootName t) "where: $filter"
        ("\x7b max \x7b " ++ f ++ " \x7d \x7d"), some flt) ∧
    aggregate_data t .sum (some f) none =
      .ok (aggregateQueryText "" (aggregateRootName t) ""
        ("\x7b sum \x7b " ++ f ++ " \x7d \x7d"), none) ∧
    aggregate_data t .avg (some f) none =
      .ok (aggregateQueryText "" (aggregateRootName t) ""
        ("\x7b avg \x7b " ++ f ++ " \x7d \x7d"), none) ∧
    aggregate_data t .min (some f) none =
      .ok (aggregateQueryText "" (aggregateRootName t) ""
        ("\x7b min \x7b " ++ f ++ " \x7d \x7d"), none) ∧
    aggregate_data t .max (some f) none =
      .ok (aggregateQueryText "" (aggregateRootName t) ""
        ("\x7b max \x7b " ++ f ++ " \x7d \x7d"), none) := by
  have hb : (f == "") = false := by
    simp [hf]
  refine ⟨rfl, rfl, rfl, rfl, ?_, ?_, ?_, ?_, ?_, ?_, ?_, ?_⟩ <;>
    simp [aggregate_data, jsFalsy, hb, AggFn.fnName]

/-- C6 witness: the theorem applied at the spec's own example — avg of the
field total on the table orders with a filter — with the validation
hypothesis discharged concretely. -/
theorem aggregate_document_shape_witness :
    aggregate_data "orders" .avg (some "total") (some "F") =
      .ok (aggregateQueryText ("($filter: " ++ boolExpName "orders" ++ "!)")
        (aggregateRootName "orders") "where: $filter"
        ("\x7b avg \x7b " ++ "total" ++ " \x7d \x7d"), some "F") :=
  (aggregate_document_shape "orders" "total" "F" none (by decide)).2.2.2.2.2.1

/-- C4 counterexample: on the spec's worked example table, the document the
code sends carries the operation name `PreviewData` (with a leading space
and fields joined by newline indentation), so it is not the claim's
`query($limit: Int!) ...` document under either natural field-joining
instantiation of the template. -/
theorem preview_document_operation_name_counterexample :
    preview_table_data "t" 5 previewExampleSchema =
      .ok (" query PreviewData($limit: Int!) \x7b t(limit: $limit) \x7b id\n          name\n          tags \x7d \x7d", 5) ∧
    " query PreviewData($limit: Int!) \x7b t(limit: $limit) \x7b id\n          name\n          tags \x7d \x7d" ≠
      "query($limit: Int!) \x7b t(limit: $limit) \x7b id name tags \x7d \x7d" ∧
    " query PreviewData($limit: Int!) \x7b t(limit: $limit) \x7b id\n          name\n          tags \x7d \x7d" ≠
      "query($limit: Int!) \x7b t(limit: $limit) \x7b id\n          name\n          tags \x7d \x7d" := by
  refine ⟨rfl, by decide, by decide⟩

/-- C4 (amended): for a table whose OBJECT type is found in the cached
schema, `preview_table_data` synthesizes the document
` query PreviewData($limit: Int!) \x7b <table>(limit: $limit) \x7b <fields> \x7d \x7d`
with the limit as its variables, where the selection is exactly the names
of the fields whose unwrapped leaf kind is SCALAR or ENUM, in declared
order, falling back to the single meta field `__typename` when no field
qualifies. -/
theorem preview_table_data_document (schema : IntrospectionSchema)
    (tableName : String) (limit : Int) (tableType : SchemaType)
    (h : schema.types.find? (fun t => t.name == tableName && t.kind == .OBJECT) =
      some tableType) :
    preview_table_data tableName limit schema =
      .ok (preview_query_doc tableName (preview_selection tableType), limit) ∧
    preview_selection tableType =
      (if ((tableType.fields.getD []).filter
            (fun f => isScalarLike (unwrapToNamed f.type).1)).map SchemaField.name = []
        then ["__typename"]
        else ((tableType.fields.getD []).filter
            (fun f => isScalarLike (unwrapToNamed f.type).1)).map SchemaField.name) := by
  constructor
  · unfold preview_table_data
    rw [h]
  · rfl

/-- C4 witness: the amended theorem applied at the spec's worked example —
the non-scalar field `profile` is excluded and the document keeps declared
field order. -/
theorem preview_table_data_document_witness :
    preview_table_data "t" 5 previewExampleSchema =
      .ok (" query PreviewData($limit: Int!) \x7b t(limit: $limit) \x7b id\n          name\n          tags \x7d \x7d", 5) := by
  have h := (preview_table_data_document previewExampleSchema "t" 5
    previewExampleType (by decide)).1
  exact h.trans rfl

/-- C8: when the direct `__type` lookup of the table name misses,
`describe_table` performs exactly one retry with the first character
upper-cased — unconditionally, so the retried name may equal the original —
and when the retry also misses it fails with an error naming the original
table name; when the retry hits, that type is described. -/
theorem describe_table_capitalize_retry (lookup : String → Option TableTypeInfo)
    (tableName schemaName : String) (h : lookup tableName = none) :
    (describe_table lookup tableName schemaName).1 =
      [tableName, capitalizeFirst tableName] ∧
    (lookup (capitalizeFirst tableName) = none →
      (describe_table lookup tableName schemaName).2 =
        .error (.thrown ("Table \x27" ++ tableName ++
          "\x27 not found in schema. Check the table name and schema."))) ∧
    (∀ t, lookup (capitalizeFirst tableName) = some t →
      (describe_table lookup tableName schemaName).2 =
        describe_table_found tableName schemaName t) := by
  refine ⟨?_, ?_, ?_⟩
  · unfold describe_table
    rw [h]
    cases lookup (capitalizeFirst tableName) <;> rfl
  · intro h2
    unfold describe_table
    rw [h, h2]
  · intro t h2
    unfold describe_table
    rw [h, h2]

/-- C8 witness: with a lookup that always misses and the already-capitalized
name Orders, the retry still happens and retries the unchanged name, and
the final error names the original table name. -/
theorem describe_table_capitalize_retry_witness :
    (describe_table (fun _ => none) "Orders" "public").1 = ["Orders", "Orders"] ∧
    (describe_table (fun _ => none) "Orders" "public").2 =
      .error (.thrown "Table \x27Orders\x27 not found in schema. Check the table name and schema.") := by
  have h := describe_table_capitalize_retry (fun _ => none) "Orders" "public" rfl
  exact ⟨h.1.trans (by decide), (h.2.1 rfl).trans rfl⟩

/-- C9: `health_check` always returns a text payload and never propagates
an exception — on any thrown failure (transport error of the GraphQL probe,
failed HTTP GET, or non-ok HTTP status) the payload is the failure phrase
followed by the underlying message, and on success it is the success phrase
followed by the status text. -/
theorem health_check_never_throws (url endpoint msg j statusText : String)
    (status : Nat) (healthEndpointUrl : Option String)
    (fetchOutcome : Except String HttpResponse)
    (gqlOutcome : Except String String) :
    (∃ text, health_check healthEndpointUrl fetchOutcome gqlOutcome endpoint =
      .ok text) ∧
    health_check (some url) (.error msg) gqlOutcome endpoint =
      .ok ("Health check failed: " ++ msg) ∧
    health_check none fetchOutcome (.error msg) endpoint =
      .ok ("Health check failed: " ++ msg) ∧
    health_check (some url) (.ok ⟨status, statusText, false⟩) gqlOutcome endpoint =
      .ok ("Health check failed: " ++ ("Health endpoint " ++ url ++ " status: " ++
        toString status ++ " " ++ statusText)) ∧
    health_check (some url) (.ok ⟨status, statusText, true⟩) gqlOutcome endpoint =
      .ok ("Health check successful. " ++ ("Health endpoint " ++ url ++ " status: " ++
        toString status ++ " " ++ statusText)) ∧
    health_check none fetchOutcome (.ok j) endpoint =
      .ok ("Health check successful. " ++ ("GraphQL endpoint " ++ endpoint ++
        " is responsive. Result: " ++ j)) := by
  refine ⟨?_, rfl, rfl, rfl, rfl, rfl⟩
  cases healthEndpointUrl with
  | some u =>
    cases fetchOutcome with
    | error m => exact ⟨_, rfl⟩
    | ok r =>
      rcases r with ⟨st, sx, rok⟩
      cases rok
      · exact ⟨_, rfl⟩
      · exact ⟨_, rfl⟩
  | none =>
    cases gqlOutcome with
    | error m => exact ⟨_, rfl⟩
    | ok jj => exact ⟨_, rfl⟩

/-- C10: when a `__type` lookup of `describe_table` succeeds (directly or
via the capitalization retry) but the returned type carries no fields list,
the handler dereferences the missing array and raises a TypeError instead
of a structured description or a not-found error. -/
theorem describe_table_null_fields_typeerror (lookup : String → Option TableTypeInfo)
    (tableName schemaName : String) (t : TableTypeInfo) (hf : t.fields = none) :
    (lookup tableName = some t →
      (describe_table lookup tableName schemaName).2 =
        .error (.typeError "Cannot read properties of null (reading \x27map\x27)")) ∧
    (lookup tableName = none → lookup (capitalizeFirst tableName) = some t →
      (describe_table lookup tableName schemaName).2 =
        .error (.typeError "Cannot read properties of null (reading \x27map\x27)")) := by
  constructor
  · intro h1
    unfold describe_table
    rw [h1]
    show describe_table_found tableName schemaName t = _
    unfold describe_table_found
    rw [hf]
  · intro h1 h2
    unfold describe_table
    rw [h1, h2]
    show describe_table_found tableName schemaName t = _
    unfold describe_table_found
    rw [hf]

/-- C10 witness: looking up the SCALAR type Int (whose introspection payload
has a null fields list) makes `describe_table` raise the TypeError. -/
theorem describe_table_null_fields_typeerror_witness :
    (describe_table (fun _ => some scalarTypeInfo) "Int" "public").2 =
      .error (.typeError "Cannot read properties of null (reading \x27map\x27)") :=
  (describe_table_null_fields_typeerror (fun _ => some scalarTypeInfo)
    "Int" "public" scalarTypeInfo rfl).1 rfl

end PlantOps



